import Mathlib

/-!
Verification of the PptExtractor repository (`src/app.py`).

The program has three pieces of logic:
  * `extract_assessments_from_ppt` — iterate slides (1-indexed) and shapes,
    collecting `{Slide, Assessment Text}` records for every shape whose
    text frame's trimmed text starts with the literal `"Assessment"`;
  * `write_to_excel` — serialize the records to `output.xlsx` via
    `pandas.DataFrame(...).to_excel(..., index=False)`, overwriting the file;
  * `process_upload` — the Dash upload callback: extension check,
    extraction inside `try/except`, empty-result message, write, preview.

Presentation parsing (base64 decode + `pptx.Presentation`) and the Excel
file format are external-library calls; they are embedded abstractly: a
parsed upload is an `Except String Pptx` (error = the exception the
library raised), and the spreadsheet file at the fixed output path is an
`Option Spreadsheet` value (the file-system cell for `output.xlsx`).

Python string primitives (`str.strip`, `str.startswith`, `str.lower`,
`str.endswith`) are embedded as executable functions on the character
list of a `String`; whitespace and case conversion are the ASCII cases of
Python's Unicode behaviour, which is what every string in the program and
the spec exercises.
-/

/-- Python `s.strip()` on the left end: drop leading whitespace characters. -/
def dropLeadingWS : List Char → List Char
  | [] => []
  | c :: cs => if c.isWhitespace then dropLeadingWS cs else c :: cs

/-- Python `s.strip()`: remove leading and trailing whitespace. -/
def pyStrip (s : String) : String :=
  ⟨(dropLeadingWS (dropLeadingWS s.data).reverse).reverse⟩

/-- Python `s.startswith(p)`: `p` is a prefix of `s` (case-sensitive,
anchored at the start). -/
def pyStartswith (s p : String) : Bool :=
  List.isPrefixOf p.data s.data

/-- Python `s.endswith(p)`: `p` is a suffix of `s`. -/
def pyEndswith (s p : String) : Bool :=
  List.isSuffixOf p.data s.data

/-- Python `s.lower()` (ASCII case). -/
def pyLower (s : String) : String :=
  ⟨s.data.map Char.toLower⟩

/-- A drawable element on a slide: `shape.has_text_frame` and `shape.text`
are the two attributes the source reads. -/
structure Shape where
  has_text_frame : Bool
  text : String
deriving DecidableEq

/-- One slide: the ordered collection `slide.shapes`. -/
structure Slide where
  shapes : List Shape
deriving DecidableEq

/-- A parsed presentation: `prs.slides` in document order. -/
structure Pptx where
  slides : List Slide
deriving DecidableEq

/-- The extracted record: dict `{"Slide": slide_number, "Assessment Text": text}`
appended by the source loop. -/
structure Record where
  slide_number : Nat
  text : String
deriving DecidableEq

/-- `src/app.py` line 9: `OUTPUT_FILE = "output.xlsx"`. -/
def OUTPUT_FILE : String := "output.xlsx"

/-- Inner loop of `extract_assessments_from_ppt` (lines 28-37): scan the
shapes of the slide numbered `slide_number`; skip shapes without a text
frame (`continue`); append a record when `shape.text.strip()` starts with
`"Assessment"`. -/
def extractSlideShapes (slide_number : Nat) : List Shape → List Record
  | [] => []
  | shape :: rest =>
    if !shape.has_text_frame then
      extractSlideShapes slide_number rest
    else
      let text := pyStrip shape.text
      if pyStartswith text "Assessment" then
        ⟨slide_number, text⟩ :: extractSlideShapes slide_number rest
      else
        extractSlideShapes slide_number rest

/-- Outer loop of `extract_assessments_from_ppt` (line 27):
`enumerate(prs.slides, start=n)`, collecting the per-slide records in order. -/
def extractSlidesFrom (n : Nat) : List Slide → List Record
  | [] => []
  | slide :: rest => extractSlideShapes n slide.shapes ++ extractSlidesFrom (n + 1) rest

/-- `extract_assessments_from_ppt` (lines 15-39) applied to an
already-parsed presentation: both loops, `start=1`. -/
def extractFromPresentation (prs : Pptx) : List Record :=
  extractSlidesFrom 1 prs.slides

/-- `extract_assessments_from_ppt` on an upload payload.  The base64
decode and `Presentation(io.BytesIO(decoded))` calls (lines 18-21) are
library code embedded as the `Except String Pptx` outcome; the function
body has no `try/except`, so a parse exception propagates unchanged. -/
def extract_assessments_from_ppt (parsed : Except String Pptx) : Except String (List Record) :=
  match parsed with
  | .error e => .error e
  | .ok prs => .ok (extractFromPresentation prs)

/-- Specification-side qualifying test (spec §4.1): the shape contains
text and its trimmed text starts with the literal `"Assessment"`. -/
def qualifies (shape : Shape) : Bool :=
  shape.has_text_frame && pyStartswith (pyStrip shape.text) "Assessment"

/-- Specification-side extractor (spec §4.1, written from the spec's
words, to be compared with `extractFromPresentation`): for each slide
(1-indexed in document order), for each qualifying shape, emit a record
with the slide's 1-based index and the trimmed text. -/
def extractSpec (prs : Pptx) : List Record :=
  ((prs.slides.enumFrom 1).map fun p =>
    (p.2.shapes.filter qualifies).map fun shape => ⟨p.1, pyStrip shape.text⟩).flatten

/-- A spreadsheet cell: the written workbook holds the slide numbers and
the assessment texts. -/
inductive Cell where
  | nat (n : Nat)
  | str (s : String)
deriving DecidableEq

/-- The written workbook, as readable back from the file: a header row of
column names and the data rows. -/
structure Spreadsheet where
  columns : List String
  rows : List (List Cell)
deriving DecidableEq

/-- The column names of the records' dict keys, in insertion order. -/
def outputColumns : List String := ["Slide", "Assessment Text"]

/-- The spreadsheet row a record becomes. -/
def recordRow (r : Record) : List Cell :=
  [Cell.nat r.slide_number, Cell.str r.text]

/-- `pd.DataFrame(data)` for a list of `{"Slide": _, "Assessment Text": _}`
dicts: columns are the dict keys in insertion order (no columns when the
list is empty), one row per dict. -/
def pd_DataFrame (data : List Record) : Spreadsheet :=
  { columns := if data.isEmpty then [] else outputColumns,
    rows := data.map recordRow }

/-- `df.to_excel(path, index=False)`: the sheet written is the frame
itself; `index=True` would prepend the row-index column. -/
def df_to_excel (df : Spreadsheet) (index : Bool) : Spreadsheet :=
  if index then
    { columns := "" :: df.columns,
      rows := df.rows.enum.map fun p => Cell.nat p.1 :: p.2 }
  else df

/-- `write_to_excel` (lines 42-44): build the frame and write it to
`OUTPUT_FILE` with `index=False`, replacing whatever the file-system cell
for that path held. -/
def write_to_excel (data : List Record) (_fs : Option Spreadsheet) : Option Spreadsheet :=
  some (df_to_excel (pd_DataFrame data) false)

/-- Reading the written workbook back into records: the columns must be
the two output columns and every row a (number, text) pair. -/
def rowRecord : List Cell → Option Record
  | [Cell.nat n, Cell.str s] => some ⟨n, s⟩
  | _ => none

/-- Parse the data rows back, in order; fail on any non-conforming row. -/
def readRows : List (List Cell) → Option (List Record)
  | [] => some []
  | row :: rest =>
    match rowRecord row, readRows rest with
    | some r, some rs => some (r :: rs)
    | _, _ => none

/-- Read a spreadsheet back as a list of records (round-trip direction). -/
def readSpreadsheet (sheet : Spreadsheet) : Option (List Record) :=
  if sheet.columns = outputColumns then readRows sheet.rows else none

/-- Status message for a wrong extension (line 110). -/
def extensionErrorMsg : String := "Please upload a .pptx file."

/-- Status message for zero matches (lines 116-119). -/
def noResultsMsg : String := "No assessments found in this presentation."

/-- Status message on success (lines 127-130). -/
def successMsg (n : Nat) : String :=
  "Successfully extracted " ++ toString n ++ " assessments. Excel file overwritten: " ++ OUTPUT_FILE

/-- Status message when the `try` block raises (line 149): `f"Error: {str(e)}"`. -/
def errorMsg (e : String) : String := "Error: " ++ e

/-- Body of the `try` block of `process_upload` (lines 112-146), after the
extension check passed: extract; on an exception return the error message;
on zero matches return the no-results message; otherwise write the file
and return the success message.  Result is the status message paired with
the new content of the file-system cell for `OUTPUT_FILE`. -/
def handleParsed (parsed : Except String Pptx) (fs : Option Spreadsheet) :
    String × Option Spreadsheet :=
  match extract_assessments_from_ppt parsed with
  | .error e => (errorMsg e, fs)
  | .ok data =>
    if data.isEmpty then (noResultsMsg, fs)
    else (successMsg data.length, write_to_excel data fs)

/-- `process_upload` (lines 106-149): `contents is None` guard, then the
case-insensitive `.pptx` extension check (`filename.lower().endswith`),
then the `try` block.  `contents` carries the outcome the library parsing
would produce for the uploaded bytes. -/
def process_upload (contents : Option (Except String Pptx)) (filename : String)
    (fs : Option Spreadsheet) : String × Option Spreadsheet :=
  match contents with
  | none => ("", fs)
  | some parsed =>
    if !pyEndswith (pyLower filename) ".pptx" then (extensionErrorMsg, fs)
    else handleParsed parsed fs

theorem extractSlideShapes_eq (n : Nat) (shapes : List Shape) :
    extractSlideShapes n shapes =
      (shapes.filter qualifies).map fun shape => ⟨n, pyStrip shape.text⟩ := by
  induction shapes with
  | nil => rfl
  | cons shape rest ih =>
    by_cases htf : shape.has_text_frame
    · by_cases hsw : pyStartswith (pyStrip shape.text) "Assessment"
      · simp [extractSlideShapes, htf, hsw, qualifies, ih]
      · simp [extractSlideShapes, htf, hsw, qualifies, ih]
    · simp [extractSlideShapes, htf, qualifies, ih]

theorem extractSlidesFrom_eq (n : Nat) (slides : List Slide) :
    extractSlidesFrom n slides =
      ((slides.enumFrom n).map fun p =>
        (p.2.shapes.filter qualifies).map fun shape => ⟨p.1, pyStrip shape.text⟩).flatten := by
  induction slides generalizing n with
  | nil => rfl
  | cons slide rest ih =>
    simp [extractSlidesFrom, List.enumFrom, extractSlideShapes_eq, ih]

/-- The implementation loop agrees with the spec-side extractor. -/
theorem extract_eq_spec (prs : Pptx) : extractFromPresentation prs = extractSpec prs :=
  extractSlidesFrom_eq 1 prs.slides

example : extractFromPresentation
    ⟨[⟨[⟨true, "Assessment A"⟩]⟩, ⟨[⟨true, "Notes"⟩]⟩,
      ⟨[⟨true, "Assessment B"⟩, ⟨true, "Assessment C"⟩]⟩]⟩ =
    [⟨1, "Assessment A"⟩, ⟨3, "Assessment B"⟩, ⟨3, "Assessment C"⟩] := by decide

example : qualifies ⟨true, "  Assessment: risk"⟩ = true := by decide
example : qualifies ⟨true, "assessment: risk"⟩ = false := by decide
example : qualifies ⟨true, "Pre-Assessment"⟩ = false := by decide

example : process_upload (some (.error "bad zip")) "deck.pptx" none =
    (errorMsg "bad zip", none) := by decide
example : process_upload (some (.ok ⟨[]⟩)) "notes.txt" none =
    (extensionErrorMsg, none) := by decide
example : process_upload (some (.ok ⟨[⟨[⟨true, "Assessment A"⟩]⟩]⟩)) "Deck.PPTX" none =
    (successMsg 1, some ⟨outputColumns, [[Cell.nat 1, Cell.str "Assessment A"]]⟩) := by decide
example : readSpreadsheet ⟨outputColumns, [[Cell.nat 1, Cell.str "Assessment A"]]⟩ =
    some [⟨1, "Assessment A"⟩] := by decide

theorem mem_extractSlideShapes_slide {r : Record} {n : Nat} {shapes : List Shape}
    (h : r ∈ extractSlideShapes n shapes) : r.slide_number = n := by
  rw [extractSlideShapes_eq] at h
  obtain ⟨shape, -, rfl⟩ := List.mem_map.mp h
  rfl

theorem mem_extractSlidesFrom_le {r : Record} {n : Nat} {slides : List Slide}
    (h : r ∈ extractSlidesFrom n slides) : n ≤ r.slide_number := by
  induction slides generalizing n with
  | nil => simp [extractSlidesFrom] at h
  | cons slide rest ih =>
    rw [extractSlidesFrom, List.mem_append] at h
    rcases h with h | h
    · exact (mem_extractSlideShapes_slide h).ge
    · exact Nat.le_of_succ_le (ih h)

theorem pairwise_le_of_const {l : List Record} {n : Nat} (h : ∀ r ∈ l, r.slide_number = n) :
    l.Pairwise fun r1 r2 => r1.slide_number ≤ r2.slide_number := by
  induction l with
  | nil => exact List.Pairwise.nil
  | cons a l ih =>
    refine List.Pairwise.cons (fun b hb => ?_) (ih fun r hr => h r (List.mem_cons_of_mem _ hr))
    rw [h a (List.mem_cons_self _ _), h b (List.mem_cons_of_mem _ hb)]

theorem extractSlidesFrom_pairwise (n : Nat) (slides : List Slide) :
    (extractSlidesFrom n slides).Pairwise fun r1 r2 => r1.slide_number ≤ r2.slide_number := by
  induction slides generalizing n with
  | nil => exact List.Pairwise.nil
  | cons slide rest ih =>
    rw [extractSlidesFrom]
    refine List.pairwise_append.mpr
      ⟨pairwise_le_of_const fun r hr => mem_extractSlideShapes_slide hr, ih (n + 1),
        fun r1 h1 r2 h2 => ?_⟩
    rw [mem_extractSlideShapes_slide h1]
    exact Nat.le_of_succ_le (mem_extractSlidesFrom_le h2)

theorem extractSlidesFrom_filter (slides : List Slide) (n i : Nat) (hi : i < slides.length) :
    (extractSlidesFrom n slides).filter (fun r => r.slide_number == n + i) =
      ((slides.get ⟨i, hi⟩).shapes.filter qualifies).map fun shape =>
        ⟨n + i, pyStrip shape.text⟩ := by
  induction slides generalizing n i with
  | nil => simp at hi
  | cons slide rest ih =>
    rw [extractSlidesFrom, List.filter_append]
    cases i with
    | zero =>
      have hleft : (extractSlideShapes n slide.shapes).filter
          (fun r => r.slide_number == n + 0) = extractSlideShapes n slide.shapes := by
        refine List.filter_eq_self.mpr fun r hr => ?_
        simp [mem_extractSlideShapes_slide hr]
      have hright : (extractSlidesFrom (n + 1) rest).filter
          (fun r => r.slide_number == n + 0) = [] := by
        refine List.filter_eq_nil_iff.mpr fun r hr => ?_
        have := mem_extractSlidesFrom_le hr
        simp only [Nat.add_zero, beq_iff_eq]
        omega
      rw [hleft, hright, List.append_nil, extractSlideShapes_eq]
      simp
    | succ j =>
      have hleft : (extractSlideShapes n slide.shapes).filter
          (fun r => r.slide_number == n + (j + 1)) = [] := by
        refine List.filter_eq_nil_iff.mpr fun r hr => ?_
        rw [mem_extractSlideShapes_slide hr]
        simp only [beq_iff_eq]
        omega
      have hj : j < rest.length := Nat.lt_of_succ_lt_succ hi
      have := ih (n + 1) j hj
      rw [hleft, List.nil_append]
      have harith : n + 1 + j = n + (j + 1) := by omega
      rw [harith] at this
      rw [this]
      rfl

/-- C1: the extractor returns exactly one record per shape that has a
text frame and whose stripped text starts with the case-sensitive literal
`"Assessment"`, carrying the 1-based slide index and the stripped text:
the implementation equals the spec-side extractor, and the qualifying
test accepts `"  Assessment: risk"` but rejects `"assessment: risk"` and
`"Pre-Assessment"`. -/
theorem extractor_matches_spec :
    (∀ prs : Pptx, extractFromPresentation prs = extractSpec prs) ∧
    qualifies ⟨true, "  Assessment: risk"⟩ = true ∧
    qualifies ⟨true, "assessment: risk"⟩ = false ∧
    qualifies ⟨true, "Pre-Assessment"⟩ = false ∧
    qualifies ⟨false, "Assessment hidden"⟩ = false :=
  ⟨extract_eq_spec, by decide, by decide, by decide, by decide⟩

/-- C2: the records come out ordered by slide first and in-slide shape
position second: slide numbers are monotone along the output, and the
records with slide number `i + 1` are exactly the qualifying shapes of
slide `i` (0-based), in shape order. -/
theorem extractor_output_ordered (prs : Pptx) :
    ((extractFromPresentation prs).Pairwise fun r1 r2 =>
      r1.slide_number ≤ r2.slide_number) ∧
    ∀ i : Nat, (hi : i < prs.slides.length) →
      (extractFromPresentation prs).filter (fun r => r.slide_number == i + 1) =
        ((prs.slides.get ⟨i, hi⟩).shapes.filter qualifies).map fun shape =>
          ⟨i + 1, pyStrip shape.text⟩ := by
  constructor
  · exact extractSlidesFrom_pairwise 1 prs.slides
  · intro i hi
    have := extractSlidesFrom_filter prs.slides 1 i hi
    rw [Nat.add_comm 1 i] at this
    exact this

/-- Witness for C2 at a concrete two-slide presentation. -/
theorem extractor_output_ordered_witness :
    ((extractFromPresentation ⟨[⟨[⟨true, "Assessment A"⟩]⟩, ⟨[⟨true, "Assessment B"⟩]⟩]⟩).filter
        (fun r => r.slide_number == 2)) =
      [⟨2, "Assessment B"⟩] := by
  have h := (extractor_output_ordered
    ⟨[⟨[⟨true, "Assessment A"⟩]⟩, ⟨[⟨true, "Assessment B"⟩]⟩]⟩).2 1 (by decide)
  rw [h]
  decide

/-- C8: the 3-slide example document yields exactly
`[(1, "Assessment A"), (3, "Assessment B"), (3, "Assessment C")]`. -/
theorem extractor_three_slide_example :
    extractFromPresentation
        ⟨[⟨[⟨true, "Assessment A"⟩]⟩, ⟨[⟨true, "Meeting notes"⟩]⟩,
          ⟨[⟨true, "Assessment B"⟩, ⟨true, "Assessment C"⟩]⟩]⟩ =
      [⟨1, "Assessment A"⟩, ⟨3, "Assessment B"⟩, ⟨3, "Assessment C"⟩] := by decide

theorem string_ne_of_head (ca cb : Char) {a b : String}
    (ha : a.data.head? = some ca) (hb : b.data.head? = some cb) (hc : ca ≠ cb) : a ≠ b := by
  intro h
  rw [h, hb] at ha
  exact hc (Option.some.inj ha).symm

theorem noResultsMsg_ne_errorMsg (e : String) : noResultsMsg ≠ errorMsg e :=
  string_ne_of_head 'N' 'E' rfl rfl (by decide)

theorem handleParsed_fst_ne_extensionErrorMsg (parsed : Except String Pptx)
    (fs : Option Spreadsheet) : (handleParsed parsed fs).1 ≠ extensionErrorMsg := by
  match parsed with
  | .error e =>
    exact string_ne_of_head 'E' 'P' rfl rfl (by decide)
  | .ok prs =>
    by_cases hemp : (extractFromPresentation prs).isEmpty
    · simp only [handleParsed, extract_assessments_from_ppt, hemp, if_pos]
      exact string_ne_of_head 'N' 'P' rfl rfl (by decide)
    · simp only [handleParsed, extract_assessments_from_ppt, hemp, if_neg, Bool.false_eq_true,
        not_false_eq_true]
      exact string_ne_of_head 'S' 'P' rfl rfl (by decide)

theorem extractSlidesFrom_eq_nil (n : Nat) (slides : List Slide)
    (hzero : ∀ slide ∈ slides, ∀ shape ∈ slide.shapes, qualifies shape = false) :
    extractSlidesFrom n slides = [] := by
  induction slides generalizing n with
  | nil => rfl
  | cons slide rest ih =>
    rw [extractSlidesFrom, extractSlideShapes_eq]
    rw [List.filter_eq_nil_iff.mpr fun shape hs => by
      simp [hzero slide (List.mem_cons_self _ _) shape hs]]
    exact ih (n + 1) fun s hs => hzero s (List.mem_cons_of_mem _ hs)

/-- C3: with zero qualifying shapes the extractor returns the empty list,
the handler answers with the no-results message (which is not an error
message), and the output-file cell is left untouched. -/
theorem no_matches_no_write (prs : Pptx) (filename : String) (fs : Option Spreadsheet)
    (hext : pyEndswith (pyLower filename) ".pptx" = true)
    (hzero : ∀ slide ∈ prs.slides, ∀ shape ∈ slide.shapes, qualifies shape = false) :
    extractFromPresentation prs = [] ∧
    process_upload (some (.ok prs)) filename fs = (noResultsMsg, fs) ∧
    ∀ e : String, noResultsMsg ≠ errorMsg e := by
  have hnil : extractFromPresentation prs = [] := extractSlidesFrom_eq_nil 1 prs.slides hzero
  refine ⟨hnil, ?_, noResultsMsg_ne_errorMsg⟩
  simp [process_upload, hext, handleParsed, extract_assessments_from_ppt, hnil]

/-- Witness for C3: a presentation with one non-qualifying shape. -/
theorem no_matches_no_write_witness :
    extractFromPresentation ⟨[⟨[⟨true, "Meeting notes"⟩]⟩]⟩ = [] ∧
    process_upload (some (.ok ⟨[⟨[⟨true, "Meeting notes"⟩]⟩]⟩)) "deck.pptx" none =
      (noResultsMsg, none) ∧
    ∀ e : String, noResultsMsg ≠ errorMsg e :=
  no_matches_no_write ⟨[⟨[⟨true, "Meeting notes"⟩]⟩]⟩ "deck.pptx" none (by decide)
    (by decide)

/-- C4: on a non-empty record list the writer replaces the output-file
cell with a sheet whose columns are exactly `Slide` then
`Assessment Text` (no index column) and whose rows are exactly the
records' rows in order, independently of what the file held before. -/
theorem writer_one_row_per_record (data : List Record) (fs : Option Spreadsheet)
    (h : data ≠ []) :
    write_to_excel data fs = some ⟨outputColumns, data.map recordRow⟩ ∧
    (data.map recordRow).length = data.length ∧
    ∀ fs' : Option Spreadsheet, write_to_excel data fs' = write_to_excel data fs := by
  refine ⟨?_, List.length_map _ _, fun fs' => rfl⟩
  simp [write_to_excel, df_to_excel, pd_DataFrame, List.isEmpty_iff, h]

/-- Witness for C4 at a concrete one-record list over an existing file. -/
theorem writer_one_row_per_record_witness :
    write_to_excel [⟨1, "Assessment A"⟩] (some ⟨["old"], []⟩) =
      some ⟨outputColumns, [[Cell.nat 1, Cell.str "Assessment A"]]⟩ :=
  (writer_one_row_per_record [⟨1, "Assessment A"⟩] (some ⟨["old"], []⟩)
    (by decide)).1

theorem readRows_map_recordRow (l : List Record) :
    readRows (l.map recordRow) = some l := by
  induction l with
  | nil => rfl
  | cons a l ih => simp [readRows, recordRow, rowRecord, ih]

/-- C7: write-then-read round-trip — reading back the sheet the writer
produced for a non-empty record list returns exactly the same records in
the same order under the same column names. -/
theorem writer_round_trip (data : List Record) (fs : Option Spreadsheet) (h : data ≠ []) :
    (write_to_excel data fs).bind readSpreadsheet = some data := by
  have hw : write_to_excel data fs = some ⟨outputColumns, data.map recordRow⟩ := by
    simp [write_to_excel, df_to_excel, pd_DataFrame, List.isEmpty_iff, h]
  rw [hw]
  simp [Option.bind, readSpreadsheet, readRows_map_recordRow]

/-- Witness for C7 at a concrete two-record list. -/
theorem writer_round_trip_witness :
    (write_to_excel [⟨1, "Assessment A"⟩, ⟨3, "Assessment B"⟩] none).bind readSpreadsheet =
      some [⟨1, "Assessment A"⟩, ⟨3, "Assessment B"⟩] :=
  writer_round_trip [⟨1, "Assessment A"⟩, ⟨3, "Assessment B"⟩] none (by decide)

/-- C5: a parse failure leaves `extract_assessments_from_ppt` as the same
error (nothing is swallowed inside the extractor), and the handler turns
it into the generic error message, which carries the underlying cause
text, leaving the output-file cell unchanged. -/
theorem parse_error_propagates (e : String) (filename : String) (fs : Option Spreadsheet)
    (hext : pyEndswith (pyLower filename) ".pptx" = true) :
    extract_assessments_from_ppt (.error e) = .error e ∧
    process_upload (some (.error e)) filename fs = (errorMsg e, fs) ∧
    ∃ p : String, errorMsg e = p ++ e := by
  refine ⟨rfl, ?_, "Error: ", rfl⟩
  simp [process_upload, hext, handleParsed, extract_assessments_from_ppt]

/-- Witness for C5 at a concrete parse failure. -/
theorem parse_error_propagates_witness :
    process_upload (some (.error "File is not a zip file")) "deck.pptx" none =
      (errorMsg "File is not a zip file", none) :=
  (parse_error_propagates "File is not a zip file" "deck.pptx" none (by decide)).2.1

/-- C6: a filename failing the `.pptx` check is answered with the
extension-error message whatever the parse outcome would have been (so
before any decoding or parsing), and the output-file cell is unchanged. -/
theorem wrong_extension_rejected (filename : String)
    (hext : pyEndswith (pyLower filename) ".pptx" = false) :
    ∀ (parsed : Except String Pptx) (fs : Option Spreadsheet),
      process_upload (some parsed) filename fs = (extensionErrorMsg, fs) := by
  intro parsed fs
  simp [process_upload, hext]

/-- Witness for C6: `notes.txt` is rejected even when parsing would fail. -/
theorem wrong_extension_rejected_witness :
    process_upload (some (.error "boom")) "notes.txt" (some ⟨outputColumns, []⟩) =
      (extensionErrorMsg, some ⟨outputColumns, []⟩) :=
  wrong_extension_rejected "notes.txt" (by decide) (.error "boom")
    (some ⟨outputColumns, []⟩)

/-- C9: the extension test lowercases the filename first, so any filename
whose lowercase form ends in `.pptx` goes on to extraction (never to the
extension-error message); in particular `Deck.PPTX` and `deck.Pptx` pass
the check. -/
theorem extension_check_case_insensitive :
    (∀ filename : String, pyEndswith (pyLower filename) ".pptx" = true →
      ∀ (parsed : Except String Pptx) (fs : Option Spreadsheet),
        process_upload (some parsed) filename fs = handleParsed parsed fs ∧
        (process_upload (some parsed) filename fs).1 ≠ extensionErrorMsg) ∧
    pyEndswith (pyLower "Deck.PPTX") ".pptx" = true ∧
    pyEndswith (pyLower "deck.Pptx") ".pptx" = true := by
  refine ⟨fun filename hext parsed fs => ?_, by decide, by decide⟩
  have heq : process_upload (some parsed) filename fs = handleParsed parsed fs := by
    simp [process_upload, hext]
  exact ⟨heq, heq ▸ handleParsed_fst_ne_extensionErrorMsg parsed fs⟩

/-- Witness for C9: an uppercase-extension upload reaches extraction. -/
theorem extension_check_case_insensitive_witness :
    process_upload (some (.ok ⟨[⟨[⟨true, "Assessment A"⟩]⟩]⟩)) "Deck.PPTX" none =
      handleParsed (.ok ⟨[⟨[⟨true, "Assessment A"⟩]⟩]⟩) none :=
  (extension_check_case_insensitive.1 "Deck.PPTX" (by decide)
    (.ok ⟨[⟨[⟨true, "Assessment A"⟩]⟩]⟩) none).1

/-- C10: whenever the upload is rejected by the extension check, or
parsing raised, or extraction returned the empty list, the handler leaves
the output-file cell exactly as it was — including a previous upload's
output. -/
theorem output_file_unchanged (filename : String) (parsed : Except String Pptx)
    (fs : Option Spreadsheet)
    (h : pyEndswith (pyLower filename) ".pptx" = false ∨
      (∃ e, parsed = .error e) ∨
      (∃ prs, parsed = .ok prs ∧ extractFromPresentation prs = [])) :
    (process_upload (some parsed) filename fs).2 = fs := by
  rcases h with hext | ⟨e, rfl⟩ | ⟨prs, rfl, hnil⟩
  · simp [process_upload, hext]
  · by_cases hext : pyEndswith (pyLower filename) ".pptx"
    · simp [process_upload, hext, handleParsed, extract_assessments_from_ppt]
    · simp [process_upload, hext]
  · by_cases hext : pyEndswith (pyLower filename) ".pptx"
    · simp [process_upload, hext, handleParsed, extract_assessments_from_ppt, hnil]
    · simp [process_upload, hext]

/-- Witness for C10: a failed parse leaves a previously written file. -/
theorem output_file_unchanged_witness :
    (process_upload (some (.error "bad zip")) "deck.pptx"
        (some ⟨outputColumns, [[Cell.nat 1, Cell.str "Assessment A"]]⟩)).2 =
      some ⟨outputColumns, [[Cell.nat 1, Cell.str "Assessment A"]]⟩ :=
  output_file_unchanged "deck.pptx" (.error "bad zip")
    (some ⟨outputColumns, [[Cell.nat 1, Cell.str "Assessment A"]]⟩)
    (Or.inr (Or.inl ⟨"bad zip", rfl⟩))
